import Mathlib

/-!
Verification development for the DesignLinter Figma plugin.

The definitions below are a shallow embedding of the plugin's token-catalog
and compliance-checking core:

* `resolveColorVariableToRGBA`, `getVar`, `selectModeValue` embed the
  recursive alias resolver of `dsCatalog.ts` (the team-library variant,
  src/unnamed/part_003, lines 42-110);
* `resolveAliasWithMap` embeds the resolver of `main.ts` lines 1088-1149;
* `normalizeRgba` / `normalizeNumber` embed the value-normalization of
  `dsCatalog.ts` lines 113-124;
* `loadDSCatalog`, `matchColor`, `matchNumber`, `matchPaintStyle` embed the
  catalog builder and matchers (part_003 lines 126-373, part_002's
  `matchPaintStyle`);
* `checkColorTokens` and its per-paint helpers embed the color-token rule of
  `tokens.colors.ts` (src/unnamed/part_009);
* `applyFix` / `undoFix` embed the fix applicator and undo journal of
  `main.ts` lines 290-568.

JavaScript numbers are modelled as exact rationals (`ℚ`): every arithmetic
operation the embedded code performs (`* 255`, `Math.round`, `toFixed`,
comparison with `0`) is exact on the values appearing in this development,
so the rational model agrees with IEEE float64 evaluation on them.
JavaScript `Map`s are modelled as association lists in insertion order,
`Set`s of visited ids as lists, `undefined`/`null` as `Option.none`, thrown
exceptions as `Except.error`, and the asynchronous Figma API calls
(variable import / lookup) as lookups in an explicit environment, which is
exactly the data they return in a single-threaded run.
-/

namespace DesignLinter

/-- JavaScript `Math.round`: round half toward positive infinity. -/
def jsRound (q : ℚ) : ℤ := ⌊q + 1/2⌋

/-- JavaScript `Number.prototype.toFixed(k)` as an integer count of `10^-k`
units: round to nearest, half away from zero. -/
def jsToFixed (k : ℕ) (q : ℚ) : ℤ :=
  if q < 0 then -⌊-q * 10^k + 1/2⌋ else ⌊q * 10^k + 1/2⌋

/-- Digits of the fractional part `fr` (of width `k`), with trailing zeros
stripped, as JavaScript number-to-string printing does. -/
def fracDigits (fr : ℕ) (k : ℕ) : String :=
  let s := toString fr
  let padded := String.mk (List.replicate (k - s.length) '0') ++ s
  String.mk ((padded.toList.reverse.dropWhile (fun c => c == '0')).reverse)

/-- Render the rational `m / 10^k` the way JavaScript prints the
corresponding number: no trailing fractional zeros, no fractional point for
integers. -/
def decToString (m : ℤ) (k : ℕ) : String :=
  let n := m.natAbs
  let ip := n / 10^k
  let fr := n % 10^k
  let core := if fr = 0 then toString ip else toString ip ++ "." ++ fracDigits fr k
  if m < 0 then "-" ++ core else core

/-- An RGBA color with rational channels in place of float64 channels. -/
structure RGBA where
  r : ℚ
  g : ℚ
  b : ℚ
  a : ℚ
  deriving DecidableEq, Repr

/-- `normalizeRgba` from `dsCatalog.ts`: canonical key
`rgba(r,g,b,a)` with 8-bit rounded channels and 3-decimal alpha. -/
def normalizeRgba (color : RGBA) : String :=
  "rgba(" ++ toString (jsRound (color.r * 255)) ++ "," ++
    toString (jsRound (color.g * 255)) ++ "," ++
    toString (jsRound (color.b * 255)) ++ "," ++
    decToString (jsToFixed 3 color.a) 3 ++ ")"

/-- `normalizeNumber` from `dsCatalog.ts`: `Number(value.toFixed(4)).toString()`. -/
def normalizeNumber (value : ℚ) : String :=
  decToString (jsToFixed 4 value) 4

/-- JavaScript `Map.get`: `none` models `undefined`. -/
def jsMapGet {β : Type _} (m : List (String × β)) (k : String) : Option β :=
  (m.find? (fun kv => kv.1 == k)).map (fun kv => kv.2)

/-- JavaScript `Map.set`: overwrite in place, or append preserving insertion
order. -/
def jsMapSet {β : Type _} (m : List (String × β)) (k : String) (v : β) :
    List (String × β) :=
  if m.any (fun kv => kv.1 == k) then
    m.map (fun kv => if kv.1 == k then (kv.1, v) else kv)
  else
    m ++ [(k, v)]

/-- JavaScript `Map.delete`. -/
def jsMapDelete {β : Type _} (m : List (String × β)) (k : String) :
    List (String × β) :=
  m.filter (fun kv => !(kv.1 == k))

/-- A per-mode value of a Figma variable: a concrete RGBA object (whose `a`
field may be absent), a `VARIABLE_ALIAS` object, or a primitive. -/
inductive VarValue where
  | rgba (r g b : ℚ) (a : Option ℚ)
  | alias (id : String)
  | num (q : ℚ)
  | str (s : String)
  | bool (b : Bool)
  deriving DecidableEq, Repr

/-- JavaScript truthiness test on a variable value (objects are truthy). -/
def jsFalsy : VarValue → Bool
  | .rgba _ _ _ _ => false
  | .alias _ => false
  | .num q => q == 0
  | .str s => s == ""
  | .bool b => !b

/-- `isRgba` from `dsCatalog.ts`: all four channels must be numbers. -/
def isRgbaVal : VarValue → Bool
  | .rgba _ _ _ (some _) => true
  | _ => false

/-- `isAlias` from `dsCatalog.ts`. -/
def isAliasVal : VarValue → Bool
  | .alias _ => true
  | _ => false

/-- A Figma `Variable`: stable key, ephemeral id, per-mode value map in
insertion order. -/
structure Variable where
  id : String
  key : String
  name : String
  valuesByMode : List (String × VarValue)
  deriving DecidableEq, Repr

/-- The store of variables reachable through the Figma variable API
(`getVariableByIdAsync` / `importVariableByKeyAsync`). -/
structure ResolveEnv where
  vars : List Variable
  deriving Repr

/-- `getVar` from `dsCatalog.ts`: look up by id first, then import by key.
The cache layer collapses to a pure lookup. -/
def getVar (env : ResolveEnv) (idOrKey : String) : Option Variable :=
  match env.vars.find? (fun w => w.id == idOrKey) with
  | some v => some v
  | none => env.vars.find? (fun w => w.key == idOrKey)

/-- Mode-value selection of the resolvers: `valuesByMode[modeId]`, falling
back to the first available mode entry when the requested entry is absent
or falsy (`if (!val)`), and failing when the map is empty. -/
def selectModeValue (mp : List (String × VarValue)) (modeId : String) :
    Option VarValue :=
  match jsMapGet mp modeId with
  | some v => if jsFalsy v then (mp.head?).map (fun kv => kv.2) else some v
  | none => (mp.head?).map (fun kv => kv.2)

theorem getVar_mem {env : ResolveEnv} {s : String} {v : Variable}
    (h : getVar env s = some v) : v ∈ env.vars := by
  unfold getVar at h
  cases hf : env.vars.find? (fun w => w.id == s) with
  | some w =>
    rw [hf] at h
    cases h
    exact List.mem_of_find?_eq_some hf
  | none =>
    rw [hf] at h
    exact List.mem_of_find?_eq_some h

theorem length_filter_le_of_imp {α : Type _} (p q : α → Bool) (l : List α)
    (himp : ∀ a, q a = true → p a = true) :
    (l.filter q).length ≤ (l.filter p).length := by
  induction l with
  | nil => simp
  | cons a l ih =>
    by_cases hq : q a = true
    · simp [List.filter_cons, hq, himp a hq]
      exact ih
    · simp only [List.filter_cons]
      rw [Bool.not_eq_true] at hq
      rw [hq]
      by_cases hp : p a = true
      · simp [hp]
        exact Nat.le_succ_of_le ih
      · rw [Bool.not_eq_true] at hp
        rw [hp]
        simpa using ih

theorem length_filter_lt_of_witness {α : Type _} (p q : α → Bool) (l : List α)
    (himp : ∀ a, q a = true → p a = true) (x : α) (hx : x ∈ l)
    (hpx : p x = true) (hqx : q x = false) :
    (l.filter q).length < (l.filter p).length := by
  induction l with
  | nil => cases hx
  | cons a l ih =>
    rcases List.mem_cons.mp hx with h | h
    · subst h
      simp only [List.filter_cons, hpx, hqx]
      simp only [if_true, if_false, List.length_cons]
      exact Nat.lt_succ_of_le (length_filter_le_of_imp p q l himp)
    · by_cases hq : q a = true
      · simp [List.filter_cons, hq, himp a hq]
        exact ih h
      · rw [Bool.not_eq_true] at hq
        simp only [List.filter_cons, hq]
        by_cases hp : p a = true
        · simp only [hp, if_true, List.length_cons]
          exact Nat.lt_succ_of_le (Nat.le_of_lt (ih h))
        · rw [Bool.not_eq_true] at hp
          rw [hp]
          simpa using ih h

/-- `resolveColorVariableToRGBA` from `dsCatalog.ts` (part_003 lines
70-110): recursive alias resolution with cycle protection through the
`visited` set.  Termination: each recursive step adds to `visited` the id
of a store variable not previously visited, so the count of unvisited
store variables strictly decreases. -/
def resolveColorVariableToRGBA (env : ResolveEnv) (variableIdOrKey : String)
    (modeId : String) (visited : List String) : Option RGBA :=
  match hv : getVar env variableIdOrKey with
  | none => none
  | some v =>
    if hmem : v.id ∈ visited then none
    else
      match selectModeValue v.valuesByMode modeId with
      | none => none
      | some val =>
        match val with
        | .rgba r g b (some a) => some ⟨r, g, b, a⟩
        | .rgba _ _ _ none => none
        | .alias id2 =>
            resolveColorVariableToRGBA env id2 modeId (v.id :: visited)
        | .num _ => none
        | .str _ => none
        | .bool _ => none
termination_by
  (env.vars.filter (fun w => decide (w.id ∉ visited))).length
decreasing_by
  exact length_filter_lt_of_witness _ _ _
    (fun w hw => by
      simp only [decide_eq_true_eq] at hw ⊢
      intro hcon
      exact hw (List.mem_cons_of_mem _ hcon))
    v (getVar_mem hv)
    (by simp [hmem]) (by simp)

/-- The value `resolveAliasWithMap` can produce: a completed RGBA object or
a primitive. -/
inductive ResolvedValue where
  | rgba (c : RGBA)
  | num (q : ℚ)
  | str (s : String)
  | bool (b : Bool)
  deriving DecidableEq, Repr

/-- `resolveAliasWithMap` from `main.ts` lines 1088-1149: resolve a
`VARIABLE_ALIAS` value against the imported-variables map, with cycle
detection on the alias id and first-available-mode fallback.  Any
non-alias input returns `none` immediately. -/
def resolveAliasWithMap (env : List Variable) (value : Option VarValue)
    (modeId : String) (visited : List String) : Option ResolvedValue :=
  match value with
  | some (.alias aliasId) =>
    if hmem : aliasId ∈ visited then none
    else
      match hv : env.find? (fun w => w.id == aliasId) with
      | none => none
      | some aliasVar =>
        match selectModeValue aliasVar.valuesByMode modeId with
        | none => none
        | some aliasValue =>
          match aliasValue with
          | .rgba r g b a => some (.rgba ⟨r, g, b, a.getD 1⟩)
          | .alias id2 =>
              resolveAliasWithMap env (some (.alias id2)) modeId
                (aliasId :: visited)
          | .num q => some (.num q)
          | .str s => some (.str s)
          | .bool b => some (.bool b)
  | _ => none
termination_by
  (env.filter (fun w => decide (w.id ∉ visited))).length
decreasing_by
  exact length_filter_lt_of_witness _ _ _
    (fun w hw => by
      simp only [decide_eq_true_eq] at hw ⊢
      intro hcon
      exact hw (List.mem_cons_of_mem _ hcon))
    aliasVar (List.mem_of_find?_eq_some hv)
    (by
      have hid := List.find?_some hv
      rw [beq_iff_eq] at hid
      simp [hid, hmem])
    (by
      have hid := List.find?_some hv
      rw [beq_iff_eq] at hid
      simp [hid])


/-- Library-collection metadata for one variable
(`getVariablesInLibraryCollectionAsync` entries). -/
structure VarMeta where
  key : String
  name : String
  resolvedType : String
  deriving DecidableEq, Repr

/-- An enabled team-library variable collection
(`getAvailableLibraryVariableCollectionsAsync` entries, with its variable
metadata attached). -/
structure LibCollection where
  key : String
  name : String
  libraryName : String
  varMetas : List VarMeta
  deriving DecidableEq, Repr

/-- Everything the Figma team-library API exposes to `loadDSCatalog`:
the enabled collections and the store of importable variables. -/
structure CatalogEnv where
  collections : List LibCollection
  vars : List Variable
  deriving Repr

/-- `DSVarRef` from `dsCatalog.ts`. -/
structure DSVarRef where
  collectionKey : String
  collectionName : String
  variableKey : String
  variableName : String
  resolvedType : String
  libraryName : Option String
  deriving DecidableEq, Repr

/-- `DSStyleRef` from the palette-based `dsCatalog.ts`. -/
structure DSStyleRef where
  styleId : String
  styleKey : String
  styleName : String
  libraryName : Option String
  deriving DecidableEq, Repr

/-- `DSCatalog`: the four variable value indices of part_003 plus the
paint-style index of part_002 (part_003's loader leaves it empty).  The
`loadedAt` timestamp is dropped (wall-clock time, unobserved by any claim). -/
structure DSCatalog where
  selectedLibraryKey : Option String
  collectionsByKey : List (String × LibCollection)
  variablesByKey : List (String × VarMeta)
  colorsByRgba : List (String × List DSVarRef)
  numbersByValue : List (String × List DSVarRef)
  stringsByValue : List (String × List DSVarRef)
  booleansByValue : List (String × List DSVarRef)
  paintStylesByRgba : List (String × List DSStyleRef)
  deriving DecidableEq, Repr

def emptyCatalog (selectedLibraryKey : Option String) : DSCatalog :=
  ⟨selectedLibraryKey, [], [], [], [], [], [], []⟩

/-- The `if (!index.has(key)) index.set(key, []); index.get(key)!.push(ref)`
idiom of the catalog builder. -/
def indexAppend {ρ : Type _} (idx : List (String × List ρ)) (key : String)
    (ref : ρ) : List (String × List ρ) :=
  if idx.any (fun kv => kv.1 == key) then
    idx.map (fun kv => if kv.1 == key then (kv.1, kv.2 ++ [ref]) else kv)
  else
    idx ++ [(key, [ref])]

/-- JavaScript `String(value)` coercion as used by the BOOLEAN indexing
branch.  Number printing is exact for the integers occurring here; other
rationals are rendered as `num/den`, an inessential divergence from float64
printing that no indexed value in the claims exercises. -/
def jsString : VarValue → String
  | .bool true => "true"
  | .bool false => "false"
  | .num q => if q.den = 1 then toString q.num else toString q.num ++ "/" ++ toString q.den
  | .str s => s
  | .rgba _ _ _ _ => "[object Object]"
  | .alias _ => "[object Object]"

/-- PASS 2 body of `loadDSCatalog` (part_003 lines 215-296): look the
variable up in the cache and index its per-mode values by resolved type.
Colors go through the recursive alias resolver; FLOAT/STRING values are
indexed only when already concrete (`typeof` guards); BOOLEAN values are
stringified unconditionally. -/
def processVarMeta (env : CatalogEnv) (cat : DSCatalog)
    (p : VarMeta × LibCollection) : DSCatalog :=
  let varMeta := p.1
  let collection := p.2
  match env.vars.find? (fun w => w.key == varMeta.key) with
  | none => cat
  | some v =>
    let varRef : DSVarRef :=
      { collectionKey := collection.key
        collectionName := collection.name
        variableKey := varMeta.key
        variableName := varMeta.name
        resolvedType := varMeta.resolvedType
        libraryName := some (if collection.libraryName == "" then collection.name
          else collection.libraryName) }
    if varMeta.resolvedType == "COLOR" then
      { cat with colorsByRgba := v.valuesByMode.foldl (fun idx kv =>
          match resolveColorVariableToRGBA ⟨env.vars⟩ v.id kv.1 [] with
          | some rgba => indexAppend idx (normalizeRgba rgba) varRef
          | none => idx) cat.colorsByRgba }
    else if varMeta.resolvedType == "FLOAT" then
      { cat with numbersByValue := v.valuesByMode.foldl (fun idx kv =>
          match kv.2 with
          | .num q => indexAppend idx (normalizeNumber q) varRef
          | _ => idx) cat.numbersByValue }
    else if varMeta.resolvedType == "STRING" then
      { cat with stringsByValue := v.valuesByMode.foldl (fun idx kv =>
          match kv.2 with
          | .str str => indexAppend idx str varRef
          | _ => idx) cat.stringsByValue }
    else if varMeta.resolvedType == "BOOLEAN" then
      { cat with booleansByValue := v.valuesByMode.foldl (fun idx kv =>
          indexAppend idx (jsString kv.2) varRef) cat.booleansByValue }
    else cat

/-- PASS 1 of `loadDSCatalog`: filter collections by the selected library,
record collections and importable variable metadata, and collect the
(varMeta, collection) worklist for PASS 2. -/
def loadDSCatalogPass1 (env : CatalogEnv) (selectedLibraryKey : Option String) :
    DSCatalog × List (VarMeta × LibCollection) :=
  let collections : List LibCollection := match selectedLibraryKey with
    | some k => env.collections.filter (fun c => c.libraryName == k)
    | none => env.collections
  collections.foldl
    (fun (acc : DSCatalog × List (VarMeta × LibCollection)) (collection : LibCollection) =>
    collection.varMetas.foldl (fun acc2 varMeta =>
      match env.vars.find? (fun w => w.key == varMeta.key) with
      | none => acc2
      | some _ =>
        ({ acc2.1 with
            variablesByKey := jsMapSet acc2.1.variablesByKey varMeta.key varMeta },
          acc2.2 ++ [(varMeta, collection)]))
      ({ acc.1 with
          collectionsByKey := jsMapSet acc.1.collectionsByKey collection.key collection },
        acc.2))
    (emptyCatalog selectedLibraryKey, [])

/-- `loadDSCatalog` from part_003: two passes over the enabled library
collections, producing the value-indexed catalog. -/
def loadDSCatalog (env : CatalogEnv) (selectedLibraryKey : Option String) :
    DSCatalog :=
  (loadDSCatalogPass1 env selectedLibraryKey).2.foldl (processVarMeta env)
    (loadDSCatalogPass1 env selectedLibraryKey).1

/-- `matchColor`: `null` when no catalog, else `colorsByRgba.get(key) || null`. -/
def matchColor (catalog : Option DSCatalog) (color : RGBA) :
    Option (List DSVarRef) :=
  match catalog with
  | none => none
  | some cat => jsMapGet cat.colorsByRgba (normalizeRgba color)

/-- `matchNumber`: `null` when no catalog, else `numbersByValue.get(key) || null`. -/
def matchNumber (catalog : Option DSCatalog) (value : ℚ) :
    Option (List DSVarRef) :=
  match catalog with
  | none => none
  | some cat => jsMapGet cat.numbersByValue (normalizeNumber value)

/-- `matchPaintStyle` from part_002. -/
def matchPaintStyle (catalog : Option DSCatalog) (color : RGBA) :
    Option (List DSStyleRef) :=
  match catalog with
  | none => none
  | some cat => jsMapGet cat.paintStylesByRgba (normalizeRgba color)

/-- `importVariableByKey`: the cache / local / library fallbacks collapse to
one lookup by stable key in the pure model. -/
def importVariableByKey (vars : List Variable) (varKey : String) :
    Option Variable :=
  vars.find? (fun v => v.key == varKey)

/-- Linter settings consumed by `checkColorTokens`. -/
structure Settings where
  strictness : String
  ignoreHiddenFills : Bool
  ignoreZeroOpacity : Bool
  ignoreTransparentColors : Bool
  deriving DecidableEq, Repr

/-- A paint's `color` object: `r`,`g`,`b` channels, with the `a` field
optional (Figma `SolidPaint.color` is RGB; the rule reads `color.a`). -/
structure PaintColor where
  r : ℚ
  g : ℚ
  b : ℚ
  a : Option ℚ
  deriving DecidableEq, Repr

/-- A paint in a fill/stroke list.  `boundColorVariableId` models
`paint.boundVariables.color`, the per-paint binding written by
`setBoundVariableForPaint`. -/
structure Paint where
  type : String
  visible : Option Bool
  opacity : Option ℚ
  color : PaintColor
  boundColorVariableId : Option String
  deriving DecidableEq, Repr

/-- A style-id property value: a string id or `figma.mixed`. -/
inductive StyleIdValue where
  | mixed
  | id (s : String)
  deriving DecidableEq, Repr

/-- A `fills` property value: a paint list or `figma.mixed`. -/
inductive NodeFills where
  | mixed
  | list (ps : List Paint)
  deriving DecidableEq, Repr

/-- `node.boundVariables` (only the fields the color rule reads): per-index
variable aliases for fills and strokes. -/
structure BoundVariables where
  fills : Option (List (Option String))
  strokes : Option (List (Option String))
  deriving DecidableEq, Repr

structure Padding where
  left : ℚ
  right : ℚ
  top : ℚ
  bottom : ℚ
  deriving DecidableEq, Repr

/-- A scene node, restricted to the properties the color rule and the fix
applicator touch.  `none` in an `Option`-typed field models the property
being absent from the node (`"prop" in node` is false). -/
structure SceneNode where
  id : String
  name : String
  pageName : String
  fills : Option NodeFills
  strokes : Option (List Paint)
  boundVariables : Option BoundVariables
  fillStyleId : Option StyleIdValue
  strokeStyleId : Option StyleIdValue
  textStyleId : Option StyleIdValue
  itemSpacing : Option ℚ
  padding : Option Padding
  cornerRadius : Option ℚ
  deriving DecidableEq, Repr

/-- `frameData` of a create-frame fix payload. -/
structure FrameData where
  name : String
  text : List String
  deriving DecidableEq, Repr

/-- The `FixPayload` record: a tagged union encoded, as in the source, as a
record of optional fields discriminated by `type`. -/
structure FixPayload where
  type : Option String
  variableId : Option String
  property : Option String
  styleKey : Option String
  styleName : Option String
  styleId : Option String
  value : Option ℚ
  frameData : Option FrameData
  libraryName : Option String
  deriving DecidableEq, Repr

def emptyPayload : FixPayload := ⟨none, none, none, none, none, none, none, none, none⟩

/-- A `Finding` emitted by a rule. -/
structure Finding where
  id : String
  principle : String
  severity : String
  ruleId : String
  nodeId : String
  nodeName : String
  pageName : String
  message : String
  howToFix : String
  canAutoFix : Bool
  fixPayload : Option FixPayload
  deriving DecidableEq, Repr

/-- Severity for the matched-but-unbound tier: `warn` under strict
strictness, else `info`. -/
def severityFor (settings : Settings) : String :=
  if settings.strictness == "strict" then "warn" else "info"

/-- `isEffectiveVisiblePaint` from `tokens.colors.ts`. -/
def isEffectiveVisiblePaint (paint : Paint) (settings : Settings) : Bool :=
  if paint.type != "SOLID" then false
  else if settings.ignoreHiddenFills && paint.visible == some false then false
  else if settings.ignoreZeroOpacity && paint.opacity == some 0 then false
  else if settings.ignoreTransparentColors && paint.color.a == some 0 then false
  else true

/-- `nodeBoundVars?.fills?.[i]` (resp. strokes): the optional-chained
per-index binding lookup. -/
def boundPaintAlias (bv : Option BoundVariables)
    (proj : BoundVariables → Option (List (Option String))) (i : ℕ) :
    Option String :=
  match bv with
  | none => none
  | some b =>
    match proj b with
    | none => none
    | some l => (l.get? i).join

/-- `styleId && styleId !== figma.mixed && styleId !== ""`. -/
def styleIdSkips : Option StyleIdValue → Bool
  | some (.id s) => s != ""
  | _ => false

/-- `Object.assign({}, fill.color, { a: fill.opacity ?? 1 })`. -/
def paintRgba (paint : Paint) : RGBA :=
  ⟨paint.color.r, paint.color.g, paint.color.b, paint.opacity.getD 1⟩

/-- The fill-branch loop body of `checkColorTokens` (part_009 lines
56-190) for the paint at index `i`: the zero-or-one findings this paint
contributes. -/
def checkFillPaint (catalog : Option DSCatalog) (vars : List Variable)
    (settings : Settings) (node : SceneNode) (i : ℕ) (fill : Paint) :
    List Finding :=
  if !(isEffectiveVisiblePaint fill settings) then []
  else if fill.type != "SOLID" then []
  else if (boundPaintAlias node.boundVariables (fun b => b.fills) i).isSome then []
  else if styleIdSkips node.fillStyleId then []
  else
    let fillColor := paintRgba fill
    let varMatches := matchColor catalog fillColor
    let styleMatches := matchPaintStyle catalog fillColor
    match varMatches with
    | some (varRef :: _) =>
      match importVariableByKey vars varRef.variableKey with
      | some v =>
        [{ id := node.id ++ "-fill-color", principle := "Clarity",
           severity := severityFor settings, ruleId := "tokens.colors.fill",
           nodeId := node.id, nodeName := node.name, pageName := node.pageName,
           message := "Fill color not bound to design system token",
           howToFix := "Bind to variable: " ++ varRef.variableName,
           canAutoFix := true,
           fixPayload := some { emptyPayload with
             type := some "bind-variable", variableId := some v.id,
             property := some "fills", libraryName := varRef.libraryName } }]
      | none =>
        [{ id := node.id ++ "-fill-color", principle := "Clarity",
           severity := severityFor settings, ruleId := "tokens.colors.fill",
           nodeId := node.id, nodeName := node.name, pageName := node.pageName,
           message := "Fill color matches DS variable but not bound",
           howToFix := "Bind to variable: " ++ varRef.variableName,
           canAutoFix := false,
           fixPayload := some { emptyPayload with
             libraryName := varRef.libraryName } }]
    | _ =>
      match styleMatches with
      | some (styleRef :: _) =>
        [{ id := node.id ++ "-fill-color", principle := "Clarity",
           severity := severityFor settings, ruleId := "tokens.colors.fill",
           nodeId := node.id, nodeName := node.name, pageName := node.pageName,
           message := "Fill color matches DS paint style but style not applied",
           howToFix := "Apply paint style: " ++ styleRef.styleName,
           canAutoFix := true,
           fixPayload := some { emptyPayload with
             type := some "apply-paint-style", styleKey := some styleRef.styleKey,
             property := some "fills", styleName := some styleRef.styleName,
             libraryName := styleRef.libraryName } }]
      | _ =>
        [{ id := node.id ++ "-fill-color", principle := "Clarity",
           severity := "block", ruleId := "tokens.colors.fill",
           nodeId := node.id, nodeName := node.name, pageName := node.pageName,
           message := "Color not in design system",
           howToFix := "This color (R:" ++ toString (jsRound (fillColor.r * 255)) ++
             " G:" ++ toString (jsRound (fillColor.g * 255)) ++
             " B:" ++ toString (jsRound (fillColor.b * 255)) ++
             ") is not defined in the design system. Use an existing DS variable or add it to the design system.",
           canAutoFix := false, fixPayload := none }]

/-- The stroke-branch loop body of `checkColorTokens` (part_009 lines
194-300) for the paint at index `i`. -/
def checkStrokePaint (catalog : Option DSCatalog) (vars : List Variable)
    (settings : Settings) (node : SceneNode) (i : ℕ) (stroke : Paint) :
    List Finding :=
  if !(isEffectiveVisiblePaint stroke settings) then []
  else if stroke.type != "SOLID" then []
  else if (boundPaintAlias node.boundVariables (fun b => b.strokes) i).isSome then []
  else if styleIdSkips node.strokeStyleId then []
  else
    let strokeColor := paintRgba stroke
    let varMatches := matchColor catalog strokeColor
    let styleMatches := matchPaintStyle catalog strokeColor
    match varMatches with
    | some (varRef :: _) =>
      match importVariableByKey vars varRef.variableKey with
      | some v =>
        [{ id := node.id ++ "-stroke-color", principle := "Clarity",
           severity := severityFor settings, ruleId := "tokens.colors.stroke",
           nodeId := node.id, nodeName := node.name, pageName := node.pageName,
           message := "Stroke color not bound to design system token",
           howToFix := "Bind to variable: " ++ varRef.variableName,
           canAutoFix := true,
           fixPayload := some { emptyPayload with
             type := some "bind-variable", variableId := some v.id,
             property := some "strokes", libraryName := varRef.libraryName } }]
      | none =>
        [{ id := node.id ++ "-stroke-color", principle := "Clarity",
           severity := severityFor settings, ruleId := "tokens.colors.stroke",
           nodeId := node.id, nodeName := node.name, pageName := node.pageName,
           message := "Stroke color matches DS variable but not bound",
           howToFix := "Bind to variable: " ++ varRef.variableName,
           canAutoFix := false,
           fixPayload := some { emptyPayload with
             libraryName := varRef.libraryName } }]
    | _ =>
      match styleMatches with
      | some (styleRef :: _) =>
        [{ id := node.id ++ "-stroke-color", principle := "Clarity",
           severity := severityFor settings, ruleId := "tokens.colors.stroke",
           nodeId := node.id, nodeName := node.name, pageName := node.pageName,
           message := "Stroke color matches DS paint style but style not applied",
           howToFix := "Apply paint style: " ++ styleRef.styleName,
           canAutoFix := true,
           fixPayload := some { emptyPayload with
             type := some "apply-paint-style", styleKey := some styleRef.styleKey,
             property := some "strokes", styleName := some styleRef.styleName,
             libraryName := styleRef.libraryName } }]
      | _ =>
        [{ id := node.id ++ "-stroke-color", principle := "Clarity",
           severity := "block", ruleId := "tokens.colors.stroke",
           nodeId := node.id, nodeName := node.name, pageName := node.pageName,
           message := "Color not in design system",
           howToFix := "This stroke color (R:" ++ toString (jsRound (strokeColor.r * 255)) ++
             " G:" ++ toString (jsRound (strokeColor.g * 255)) ++
             " B:" ++ toString (jsRound (strokeColor.b * 255)) ++
             ") is not defined in the design system. Use an existing DS variable or add it to the design system.",
           canAutoFix := false, fixPayload := none }]

/-- `checkColorTokens` from part_009: iterate the scanned nodes, and for
each node with fills/strokes run the per-paint fill and stroke bodies in
index order, accumulating findings in traversal order. -/
def checkColorTokens (catalog : Option DSCatalog) (vars : List Variable)
    (nodes : List SceneNode) (settings : Settings) : List Finding :=
  nodes.foldl (fun findings node =>
    if !(node.fills.isSome || node.strokes.isSome) then findings
    else
      let fillFindings := match node.fills with
        | some (.list ps) =>
          ps.enum.foldl (fun acc p =>
            acc ++ checkFillPaint catalog vars settings node p.1 p.2) []
        | _ => []
      let strokeFindings := match node.strokes with
        | some ps =>
          ps.enum.foldl (fun acc p =>
            acc ++ checkStrokePaint catalog vars settings node p.1 p.2) []
        | none => []
      findings ++ fillFindings ++ strokeFindings) []


/-- A library paint style importable by key. -/
structure PaintStyle where
  id : String
  key : String
  name : String
  deriving DecidableEq, Repr

/-- An annotation frame created by a create-frame fix (geometry and font
loading abstracted; the frame's identity is its name and tag lines). -/
structure AnnotationFrame where
  name : String
  text : List String
  deriving DecidableEq, Repr

/-- An `originalValues` journal entry: the snapshot taken before a fix
mutates, tagged as in the source by the property it captures. -/
inductive Snapshot where
  | fills (v : NodeFills)
  | strokes (v : List Paint)
  | fillStyleId (v : StyleIdValue)
  | strokeStyleId (v : StyleIdValue)
  | textStyleId (v : Option StyleIdValue)
  | itemSpacing (v : Option ℚ)
  | padding (v : Option Padding)
  | cornerRadius (v : Option ℚ)
  deriving DecidableEq, Repr

/-- The plugin-side state `applyFix`/`undoFix` act on: the document's nodes
(all on the current page), the variable and style stores, the
`originalValues` undo journal, and the page's appended annotation frames. -/
structure PluginState where
  nodes : List (String × SceneNode)
  vars : List Variable
  styles : List PaintStyle
  journal : List (String × Snapshot)
  pageChildren : List AnnotationFrame
  deriving DecidableEq, Repr

/-- `figma.variables.setBoundVariableForPaint(paint, "color", variable)`. -/
def setBoundVariableForPaint (paint : Paint) (v : Variable) : Paint :=
  { paint with boundColorVariableId := some v.id }

/-- `applyVariableBinding` from `main.ts` lines 434-453. -/
def applyVariableBinding (vars : List Variable) (node : SceneNode)
    (payload : FixPayload) : Except String SceneNode :=
  match payload.variableId, payload.property with
  | some vid, some prop =>
    match vars.find? (fun w => w.id == vid) with
    | none => Except.error "Variable not found"
    | some v =>
      if prop == "fills" && node.fills.isSome then
        match node.fills with
        | some (.list (p0 :: rest)) =>
          if p0.type == "SOLID" then
            Except.ok { node with
              fills := some (.list (setBoundVariableForPaint p0 v :: rest)) }
          else Except.ok node
        | _ => Except.ok node
      else if prop == "strokes" && node.strokes.isSome then
        match node.strokes with
        | some (p0 :: rest) =>
          if p0.type == "SOLID" then
            Except.ok { node with
              strokes := some (setBoundVariableForPaint p0 v :: rest) }
          else Except.ok node
        | _ => Except.ok node
      else Except.ok node
  | _, _ => Except.ok node

/-- `payload.libraryName || "the design system library"`. -/
def libraryNameOrDefault (payload : FixPayload) : String :=
  match payload.libraryName with
  | some s => if s == "" then "the design system library" else s
  | none => "the design system library"

/-- `applyPaintStyle` from `main.ts` lines 455-483: import the style by key
and point the node's style id at it; import failure surfaces the
library-enablement error. -/
def applyPaintStyle (styles : List PaintStyle) (node : SceneNode)
    (payload : FixPayload) : Except String SceneNode :=
  match payload.styleKey, payload.property with
  | some sk, some prop =>
    (match styles.find? (fun st => st.key == sk) with
     | none =>
       Except.error ("Cannot import paint style \"" ++ payload.styleName.getD "" ++
         "\" from " ++ libraryNameOrDefault payload ++
         ". Make sure the library is enabled in this file (Assets → Libraries → Enable \"" ++
         libraryNameOrDefault payload ++ "\").")
     | some style =>
       if prop == "fills" && node.fillStyleId.isSome then
         Except.ok { node with fillStyleId := some (.id style.id) }
       else if prop == "strokes" && node.strokeStyleId.isSome then
         Except.ok { node with strokeStyleId := some (.id style.id) }
       else Except.ok node)
  | _, _ =>
    Except.error "Missing styleKey or property. You may need to re-extract your palette with the latest version."

/-- `applyTextStyle` from `main.ts` lines 485-488. -/
def applyTextStyle (node : SceneNode) (payload : FixPayload) :
    Except String SceneNode :=
  match payload.styleId with
  | none => Except.ok node
  | some sid => Except.ok { node with textStyleId := some (.id sid) }

/-- `updateSpacing` from `main.ts` lines 540-548. -/
def updateSpacing (node : SceneNode) (payload : FixPayload) :
    Except String SceneNode :=
  if node.itemSpacing.isNone then Except.error "Node does not support spacing"
  else if payload.property == some "itemSpacing" then
    Except.ok { node with itemSpacing := payload.value }
  else Except.ok node

/-- `updatePadding` from `main.ts` lines 550-560. -/
def updatePadding (node : SceneNode) (payload : FixPayload) :
    Except String SceneNode :=
  if node.padding.isNone then Except.error "Node does not support padding"
  else Except.ok { node with padding := payload.value.map (fun q => ⟨q, q, q, q⟩) }

/-- `updateBorderRadius` from `main.ts` lines 562-568. -/
def updateBorderRadius (node : SceneNode) (payload : FixPayload) :
    Except String SceneNode :=
  if node.cornerRadius.isNone then Except.error "Node does not support border radius"
  else Except.ok { node with cornerRadius := payload.value }

/-- `createAnnotationFrame` from `main.ts` lines 490-538: no-op without
`frameData`, otherwise append a new annotation frame to the current page
(every modelled node lives on the current page, so the page walk
succeeds). -/
def createAnnotationFrame (s : PluginState) (payload : FixPayload) :
    Except String PluginState :=
  match payload.frameData with
  | none => Except.ok s
  | some fd =>
    Except.ok { s with pageChildren := s.pageChildren ++ [⟨fd.name, fd.text⟩] }

/-- Commit of `applyFix`: write the mutated node back and, when a snapshot
was taken, record it in the `originalValues` journal under the finding id. -/
def commitFix (s : PluginState) (findingId nodeId : String)
    (node2 : SceneNode) (originalValue : Option Snapshot) : PluginState :=
  { s with
    nodes := jsMapSet s.nodes nodeId node2
    journal := match originalValue with
      | some snap => jsMapSet s.journal findingId snap
      | none => s.journal }

/-- `applyFix` from `main.ts` lines 293-360: look the node up, snapshot the
property the payload will change, run the payload-specific mutation
(thrown errors abort before the journal write), then record the snapshot. -/
def applyFix (s : PluginState) (findingId nodeId : String)
    (fixPayload : FixPayload) : Except String PluginState :=
  match jsMapGet s.nodes nodeId with
  | none => Except.error "Node not found"
  | some node =>
    match fixPayload.type with
    | some "bind-variable" =>
      let originalValue : Option Snapshot :=
        if fixPayload.property == some "fills" then node.fills.map Snapshot.fills
        else if fixPayload.property == some "strokes" then node.strokes.map Snapshot.strokes
        else none
      (applyVariableBinding s.vars node fixPayload).map
        (fun node2 => commitFix s findingId nodeId node2 originalValue)
    | some "apply-paint-style" =>
      let originalValue : Option Snapshot :=
        if fixPayload.property == some "fills" then node.fillStyleId.map Snapshot.fillStyleId
        else if fixPayload.property == some "strokes" then node.strokeStyleId.map Snapshot.strokeStyleId
        else none
      (applyPaintStyle s.styles node fixPayload).map
        (fun node2 => commitFix s findingId nodeId node2 originalValue)
    | some "apply-text-style" =>
      (applyTextStyle node fixPayload).map
        (fun node2 => commitFix s findingId nodeId node2
          (some (Snapshot.textStyleId node.textStyleId)))
    | some "update-spacing" =>
      (updateSpacing node fixPayload).map
        (fun node2 => commitFix s findingId nodeId node2
          (some (Snapshot.itemSpacing node.itemSpacing)))
    | some "update-padding" =>
      (updatePadding node fixPayload).map
        (fun node2 => commitFix s findingId nodeId node2
          (some (Snapshot.padding node.padding)))
    | some "update-border-radius" =>
      (updateBorderRadius node fixPayload).map
        (fun node2 => commitFix s findingId nodeId node2
          (some (Snapshot.cornerRadius node.cornerRadius)))
    | some "create-frame" => createAnnotationFrame s fixPayload
    | _ => Except.ok s

/-- Whether `undoFix` restored a value or reported "nothing to undo". -/
inductive UndoOutcome where
  | undone
  | nothingToUndo
  deriving DecidableEq, Repr

/-- The restore switch of `undoFix` (`main.ts` lines 376-426), with the
source's `"prop" in node` guards. -/
def restoreSnapshot (node : SceneNode) (snap : Snapshot) : SceneNode :=
  match snap with
  | .fills v => if node.fills.isSome then { node with fills := some v } else node
  | .strokes v => if node.strokes.isSome then { node with strokes := some v } else node
  | .fillStyleId v =>
    if node.fillStyleId.isSome then { node with fillStyleId := some v } else node
  | .strokeStyleId v =>
    if node.strokeStyleId.isSome then { node with strokeStyleId := some v } else node
  | .textStyleId v => { node with textStyleId := v }
  | .itemSpacing v =>
    if node.itemSpacing.isSome then { node with itemSpacing := v } else node
  | .padding v => if node.padding.isSome then { node with padding := v } else node
  | .cornerRadius v =>
    if node.cornerRadius.isSome then { node with cornerRadius := v } else node

/-- `undoFix` from `main.ts` lines 362-432: no journal entry means
"nothing to undo" and no mutation; otherwise restore the snapshot and
delete the journal entry (single use). -/
def undoFix (s : PluginState) (findingId nodeId : String) :
    Except String (PluginState × UndoOutcome) :=
  match jsMapGet s.nodes nodeId with
  | none => Except.error "Node not found"
  | some node =>
    match jsMapGet s.journal findingId with
    | none => Except.ok (s, UndoOutcome.nothingToUndo)
    | some snap =>
      Except.ok ({ s with
        nodes := jsMapSet s.nodes nodeId (restoreSnapshot node snap)
        journal := jsMapDelete s.journal findingId }, UndoOutcome.undone)


/-! ### Shared lemmas about the JavaScript map model -/

theorem jsMapGet_jsMapSet_self {β : Type _} (m : List (String × β)) (k : String)
    (v : β) : jsMapGet (jsMapSet m k v) k = some v := by
  unfold jsMapSet
  by_cases h : m.any (fun kv => kv.1 == k)
  · rw [if_pos h]
    induction m with
    | nil => simp at h
    | cons kv m ih =>
      by_cases hk : kv.1 == k
      · simp [jsMapGet, List.find?, hk]
      · simp only [List.any_cons, hk, Bool.false_or] at h
        simp only [List.map_cons, if_neg hk]
        have := ih h
        simpa [jsMapGet, List.find?, hk] using this
  · rw [if_neg h]
    have hnone : m.find? (fun kv => kv.1 == k) = none := by
      rw [List.find?_eq_none]
      intro kv hkv
      intro hcon
      exact h (List.any_eq_true.mpr ⟨kv, hkv, hcon⟩)
    simp [jsMapGet, List.find?_append, hnone, List.find?]

theorem jsMapGet_jsMapDelete_self {β : Type _} (m : List (String × β))
    (k : String) : jsMapGet (jsMapDelete m k) k = none := by
  have hnone : List.find? (fun kv => kv.1 == k)
      (List.filter (fun kv => !(kv.1 == k)) m) = none := by
    rw [List.find?_eq_none]
    intro kv hkv
    have := List.of_mem_filter hkv
    simpa using this
  simp [jsMapGet, jsMapDelete, hnone]

theorem jsMapGet_mem {β : Type _} {m : List (String × β)} {k : String}
    {v : β} (h : jsMapGet m k = some v) : ∃ kv ∈ m, kv.2 = v := by
  unfold jsMapGet at h
  cases hf : m.find? (fun kv => kv.1 == k) with
  | none => rw [hf] at h; cases h
  | some kv =>
    rw [hf] at h
    cases h
    exact ⟨kv, List.mem_of_find?_eq_some hf, rfl⟩

/-! ### Step lemmas for the alias resolvers -/

theorem resolveColor_cycle {env : ResolveEnv} {ref : String} {v : Variable}
    (modeId : String) (visited : List String)
    (hgv : getVar env ref = some v) (hmem : v.id ∈ visited) :
    resolveColorVariableToRGBA env ref modeId visited = none := by
  rw [resolveColorVariableToRGBA.eq_def]
  split
  · rfl
  · rename_i v2 heq
    rw [heq] at hgv
    cases hgv
    rw [dif_pos hmem]

theorem resolveColor_step {env : ResolveEnv} {ref : String} {v : Variable}
    (modeId : String) (visited : List String)
    (hgv : getVar env ref = some v) (hmem : v.id ∉ visited) :
    resolveColorVariableToRGBA env ref modeId visited =
      match selectModeValue v.valuesByMode modeId with
      | none => none
      | some val =>
        match val with
        | .rgba r g b (some a) => some ⟨r, g, b, a⟩
        | .rgba _ _ _ none => none
        | .alias id2 =>
            resolveColorVariableToRGBA env id2 modeId (v.id :: visited)
        | .num _ => none
        | .str _ => none
        | .bool _ => none := by
  rw [resolveColorVariableToRGBA.eq_def]
  split
  · rename_i heq
    rw [heq] at hgv
    cases hgv
  · rename_i v2 heq
    rw [heq] at hgv
    cases hgv
    rw [dif_neg hmem]

theorem resolveAlias_cycle (env : List Variable) (modeId : String)
    (visited : List String) {aliasId : String} (hmem : aliasId ∈ visited) :
    resolveAliasWithMap env (some (.alias aliasId)) modeId visited = none := by
  rw [resolveAliasWithMap.eq_def]
  dsimp only
  rw [dif_pos hmem]

/-! ### Demo environments drawn from the spec's examples -/

/-- A 3-cycle of aliases `A → B → C → A`, each with a single mode `m`. -/
def cycleEnv : ResolveEnv :=
  ⟨[⟨"A", "keyA", "A", [("m", .alias "B")]⟩,
    ⟨"B", "keyB", "B", [("m", .alias "C")]⟩,
    ⟨"C", "keyC", "C", [("m", .alias "A")]⟩]⟩

/-- `Primary`, in a collection with `light` and `dark` modes, aliasing
cross-collection into `Base.Blue`. -/
def primaryVar : Variable :=
  ⟨"primary", "keyPrimary", "Primary",
    [("light", .alias "base"), ("dark", .alias "base")]⟩

/-- `Base.Blue = rgba(91,143,214,1)`, in a collection with only a `default`
mode. -/
def baseVar : Variable :=
  ⟨"base", "keyBase", "Base.Blue",
    [("default", .rgba (91/255) (143/255) (214/255) (some 1))]⟩

def crossEnv : ResolveEnv := ⟨[primaryVar, baseVar]⟩

/-! ### C1 -/

/-- **C1.** Alias resolution always terminates — both resolvers are total
Lean functions, by well-founded recursion on the count of store variables
not yet in `visited`, which mirrors exactly the code's growth of the
`visited` set.  Moreover (i) a token reference that resolves to a variable
whose id is already in `visited` returns Unresolved (`none`); (ii) on the
3-cycle `A→B→C→A` all three of `A`, `B`, `C` resolve to Unresolved; and
(iii), (iv) the same holds for `resolveAliasWithMap`, whose cycle check is
on the alias id itself. -/
theorem alias_resolution_terminates_and_cycles_unresolved :
    (∀ (env : ResolveEnv) (ref modeId : String) (visited : List String)
       (v : Variable), getVar env ref = some v → v.id ∈ visited →
       resolveColorVariableToRGBA env ref modeId visited = none) ∧
    (resolveColorVariableToRGBA cycleEnv "A" "m" [] = none ∧
     resolveColorVariableToRGBA cycleEnv "B" "m" [] = none ∧
     resolveColorVariableToRGBA cycleEnv "C" "m" [] = none) ∧
    (∀ (env : List Variable) (modeId : String) (visited : List String)
       (aliasId : String), aliasId ∈ visited →
       resolveAliasWithMap env (some (.alias aliasId)) modeId visited = none) ∧
    (resolveAliasWithMap cycleEnv.vars (some (.alias "A")) "m" [] = none ∧
     resolveAliasWithMap cycleEnv.vars (some (.alias "B")) "m" [] = none ∧
     resolveAliasWithMap cycleEnv.vars (some (.alias "C")) "m" [] = none) := by
  refine ⟨?_, ?_, ?_, ?_⟩
  · intro env ref modeId visited v hgv hmem
    exact resolveColor_cycle modeId visited hgv hmem
  · refine ⟨?_, ?_, ?_⟩ <;>
      simp [resolveColorVariableToRGBA.eq_def, cycleEnv, getVar, List.find?,
        selectModeValue, jsMapGet, jsFalsy]
  · intro env modeId visited aliasId hmem
    exact resolveAlias_cycle env modeId visited hmem
  · refine ⟨?_, ?_, ?_⟩ <;>
      simp [resolveAliasWithMap.eq_def, cycleEnv, List.find?,
        selectModeValue, jsMapGet, jsFalsy]

/-- Witness for C1: the hypotheses of the universally quantified parts are
satisfiable — resolving `"A"` with `"A"` already visited, on the concrete
cycle environment, returns Unresolved. -/
theorem alias_resolution_terminates_and_cycles_unresolved_witness :
    resolveColorVariableToRGBA cycleEnv "A" "m" ["A"] = none ∧
    resolveAliasWithMap cycleEnv.vars (some (.alias "A")) "m" ["A"] = none := by
  constructor
  · exact alias_resolution_terminates_and_cycles_unresolved.1 cycleEnv "A" "m"
      ["A"] ⟨"A", "keyA", "A", [("m", .alias "B")]⟩
      (by simp [getVar, cycleEnv, List.find?]) (by simp)
  · exact alias_resolution_terminates_and_cycles_unresolved.2.2.1 cycleEnv.vars
      "m" ["A"] "A" (by simp)

/-! ### C4 -/

/-- **C4.** Mode fallback: when the resolved variable's value map has no
entry for the requested mode id, resolution proceeds with the first
available mode entry instead of failing — stated for a concrete first
entry (a complete RGBA value, returned directly) and for an alias first
entry (recursion continues on it); and, concretely, `Primary` (in a
collection with `light`/`dark` modes) aliasing cross-collection into a
collection with only a `default` mode resolves under `dark` to the
`default`-mode value `rgba(91,143,214,1)`. -/
theorem mode_fallback_first_available :
    (∀ (env : ResolveEnv) (ref modeId : String) (visited : List String)
       (v : Variable) (m0 : String) (r g b a : ℚ)
       (rest : List (String × VarValue)),
       getVar env ref = some v → v.id ∉ visited →
       jsMapGet v.valuesByMode modeId = none →
       v.valuesByMode = (m0, .rgba r g b (some a)) :: rest →
       resolveColorVariableToRGBA env ref modeId visited = some ⟨r, g, b, a⟩) ∧
    (∀ (env : ResolveEnv) (ref modeId : String) (visited : List String)
       (v : Variable) (m0 id2 : String) (rest : List (String × VarValue)),
       getVar env ref = some v → v.id ∉ visited →
       jsMapGet v.valuesByMode modeId = none →
       v.valuesByMode = (m0, .alias id2) :: rest →
       resolveColorVariableToRGBA env ref modeId visited =
         resolveColorVariableToRGBA env id2 modeId (v.id :: visited)) ∧
    resolveColorVariableToRGBA crossEnv "primary" "dark" [] =
      some ⟨91/255, 143/255, 214/255, 1⟩ := by
  refine ⟨?_, ?_, ?_⟩
  · intro env ref modeId visited v m0 r g b a rest hgv hmem hlook hvals
    rw [resolveColor_step modeId visited hgv hmem, hvals]
    rw [hvals] at hlook
    simp [selectModeValue, hlook]
  · intro env ref modeId visited v m0 id2 rest hgv hmem hlook hvals
    rw [resolveColor_step modeId visited hgv hmem, hvals]
    rw [hvals] at hlook
    simp [selectModeValue, hlook]
  · simp [resolveColorVariableToRGBA.eq_def, crossEnv, primaryVar, baseVar,
      getVar, List.find?, selectModeValue, jsMapGet, jsFalsy]

/-- Witness for C4: the fallback hypotheses are satisfiable — resolving
`Base.Blue` directly under the absent mode `dark` falls back to its first
(`default`) entry and returns the concrete value. -/
theorem mode_fallback_first_available_witness :
    resolveColorVariableToRGBA crossEnv "base" "dark" [] =
      some ⟨91/255, 143/255, 214/255, 1⟩ :=
  mode_fallback_first_available.1 crossEnv "base" "dark" [] baseVar
    "default" (91/255) (143/255) (214/255) 1 []
    (by simp [getVar, crossEnv, primaryVar, baseVar, List.find?])
    (by simp)
    (by simp [jsMapGet, baseVar, List.find?])
    (by simp [baseVar])


/-! ### Concrete evaluations of the numeric helpers (the kernel cannot
reduce `ℚ` numerals, so these are established once by `norm_num` and fed
to `simp`/`decide` elsewhere) -/

theorem jsRound_cex_low : jsRound ((49999999 : ℚ)/100000000 * 255) = 127 := by
  norm_num [jsRound]

theorem jsRound_cex_high : jsRound ((1 : ℚ)/2 * 255) = 128 := by
  norm_num [jsRound]

theorem jsRound_zero : jsRound ((0 : ℚ) * 255) = 0 := by
  norm_num [jsRound]

theorem jsRound_boundary_pair :
    jsRound ((1 : ℚ)/2 * 255) = jsRound ((501 : ℚ)/1000 * 255) := by
  norm_num [jsRound]

theorem jsToFixed3_one : jsToFixed 3 1 = 1000 := by
  norm_num [jsToFixed]

theorem jsToFixed3_cex_low : jsToFixed 3 ((49999999 : ℚ)/100000000) = 500 := by
  norm_num [jsToFixed]

theorem jsToFixed3_half : jsToFixed 3 ((1 : ℚ)/2) = 500 := by
  norm_num [jsToFixed]

theorem jsRound_91 : jsRound ((91 : ℚ)/255 * 255) = 91 := by
  norm_num [jsRound]

theorem jsRound_143 : jsRound ((143 : ℚ)/255 * 255) = 143 := by
  norm_num [jsRound]

theorem jsRound_214 : jsRound ((214 : ℚ)/255 * 255) = 214 := by
  norm_num [jsRound]

theorem jsRound_10 : jsRound ((10 : ℚ)/255 * 255) = 10 := by
  norm_num [jsRound]

theorem jsRound_ten : jsRound (10 : ℚ) = 10 := by
  norm_num [jsRound]

theorem normalizeNumber_eight : normalizeNumber 8 = "8" := by
  have h : jsToFixed 4 8 = 80000 := by norm_num [jsToFixed]
  simp only [normalizeNumber, h]
  decide

theorem normalizeNumber_99 : normalizeNumber 99 = "99" := by
  have h : jsToFixed 4 99 = 990000 := by norm_num [jsToFixed]
  simp only [normalizeNumber, h]
  decide

theorem normalizeRgba_91 :
    normalizeRgba ⟨91/255, 143/255, 214/255, 1⟩ = "rgba(91,143,214,1)" := by
  simp only [normalizeRgba, jsRound_91, jsRound_143, jsRound_214, jsToFixed3_one]
  decide

theorem normalizeRgba_10 :
    normalizeRgba ⟨10/255, 10/255, 10/255, 1⟩ = "rgba(10,10,10,1)" := by
  simp only [normalizeRgba, jsRound_10, jsToFixed3_one]
  decide

/-! ### C3 (corrected) -/

/-- **C3, counterexample.** Two colors differing only in a channel value of
`0.49999999` versus `0.5` do *not* normalize to the same key when the
differing channel is an R/G/B channel: `0.5 * 255 = 127.5` sits exactly on
a `Math.round` half-way boundary and rounds up to `128`, while
`0.49999999 * 255 ≈ 127.4999975` rounds down to `127` (the float64 values
of the two literals lie strictly on those sides of `127.5`, so IEEE
evaluation agrees). -/
theorem normalize_rounding_noise_counterexample :
    normalizeRgba ⟨49999999/100000000, 0, 0, 1⟩ ≠ normalizeRgba ⟨1/2, 0, 0, 1⟩ := by
  simp only [normalizeRgba, jsRound_cex_low, jsRound_cex_high, jsRound_zero,
    jsToFixed3_one]
  decide

/-- **C3, amended.** Two RGBA colors differing only by rounding noise
produce the same canonical key precisely when the noise does not cross a
rounding boundary: (i) for the spec's pair `0.49999999` vs `0.5` this holds
in the *alpha* channel, where 3-decimal rounding sends both to `0.5`; and
(ii) in general, colors whose R/G/B channels round to the same 8-bit values
and whose alphas round to the same 3-decimal value normalize to the same
key.  (In an R/G/B channel the spec's pair straddles the `127.5` boundary
and the keys differ — see the counterexample.) -/
theorem normalize_same_rounding_cell :
    normalizeRgba ⟨0, 0, 0, 49999999/100000000⟩ = normalizeRgba ⟨0, 0, 0, 1/2⟩ ∧
    (∀ c1 c2 : RGBA,
      jsRound (c1.r * 255) = jsRound (c2.r * 255) →
      jsRound (c1.g * 255) = jsRound (c2.g * 255) →
      jsRound (c1.b * 255) = jsRound (c2.b * 255) →
      jsToFixed 3 c1.a = jsToFixed 3 c2.a →
      normalizeRgba c1 = normalizeRgba c2) := by
  constructor
  · simp only [normalizeRgba, jsToFixed3_cex_low, jsToFixed3_half]
  · intro c1 c2 hr hg hb ha
    simp only [normalizeRgba, hr, hg, hb, ha]

/-- Witness for C3 (amended): `0.5` and `0.501` round to the same 8-bit
value `128`, so the two colors get one key. -/
theorem normalize_same_rounding_cell_witness :
    normalizeRgba ⟨1/2, 0, 0, 1⟩ = normalizeRgba ⟨501/1000, 0, 0, 1⟩ :=
  normalize_same_rounding_cell.2 ⟨1/2, 0, 0, 1⟩ ⟨501/1000, 0, 0, 1⟩
    jsRound_boundary_pair rfl rfl rfl

/-! ### Demo catalog environments -/

/-- A FLOAT variable `Space.8 = 8` with a single mode. -/
def space8Var : Variable := ⟨"idSpace8", "keySpace8", "Space.8", [("m", .num 8)]⟩

def floatCollection : LibCollection :=
  ⟨"collF", "Spacing", "DS Library", [⟨"keySpace8", "Space.8", "FLOAT"⟩]⟩

def floatEnv : CatalogEnv := ⟨[floatCollection], [space8Var]⟩

def space8Ref : DSVarRef :=
  ⟨"collF", "Spacing", "keySpace8", "Space.8", "FLOAT", some "DS Library"⟩

/-- A catalog actually built by `loadDSCatalog` (from `floatEnv`). -/
def floatCatalog : DSCatalog := loadDSCatalog floatEnv none

theorem floatCatalog_eq :
    floatCatalog =
      { selectedLibraryKey := none
        collectionsByKey := [("collF", floatCollection)]
        variablesByKey := [("keySpace8", ⟨"keySpace8", "Space.8", "FLOAT"⟩)]
        colorsByRgba := []
        numbersByValue := [("8", [space8Ref])]
        stringsByValue := []
        booleansByValue := []
        paintStylesByRgba := [] } := by
  simp [floatCatalog, loadDSCatalog, loadDSCatalogPass1, processVarMeta,
    emptyCatalog, jsMapSet, indexAppend, floatEnv, floatCollection, space8Var,
    space8Ref, normalizeNumber_eight, List.find?]

/-! ### C6 (corrected) -/

/-- **C6, counterexample.** `matchNumber` (and `matchColor`, which uses the
identical `get(key) || null` idiom) returns `null` on a *built* catalog
when the query has no entry — exactly the value it returns when no catalog
has been built — so a `null` result does not mean "no catalog loaded":
`floatCatalog` is a built, non-empty catalog, yet querying `99` yields
`none`, the same as querying with no catalog at all. -/
theorem match_null_counterexample :
    matchNumber (some floatCatalog) 99 = none ∧
    matchNumber none 99 = none ∧
    floatCatalog.numbersByValue ≠ [] := by
  refine ⟨?_, rfl, ?_⟩
  · simp [matchNumber, floatCatalog_eq, jsMapGet, List.find?, normalizeNumber_99,
      normalizeNumber_eight, space8Ref, floatCollection]
  · rw [floatCatalog_eq]
    decide

/-- **C6, amended.** `matchColor` and `matchNumber` return `null` when no
catalog has been built *or* when the built catalog's index has no entry for
the normalized key; they return the (non-null) entry list exactly when an
entry exists.  A `null` result therefore cannot by itself distinguish "no
catalog loaded" from "loaded, no match". -/
theorem match_null_iff_no_entry :
    (∀ c, matchColor none c = none) ∧
    (∀ (cat : DSCatalog) (c : RGBA),
      jsMapGet cat.colorsByRgba (normalizeRgba c) = none →
      matchColor (some cat) c = none) ∧
    (∀ (cat : DSCatalog) (c : RGBA) (l : List DSVarRef),
      jsMapGet cat.colorsByRgba (normalizeRgba c) = some l →
      matchColor (some cat) c = some l) ∧
    (∀ q, matchNumber none q = none) ∧
    (∀ (cat : DSCatalog) (q : ℚ),
      jsMapGet cat.numbersByValue (normalizeNumber q) = none →
      matchNumber (some cat) q = none) ∧
    (∀ (cat : DSCatalog) (q : ℚ) (l : List DSVarRef),
      jsMapGet cat.numbersByValue (normalizeNumber q) = some l →
      matchNumber (some cat) q = some l) := by
  refine ⟨fun c => rfl, ?_, ?_, fun q => rfl, ?_, ?_⟩
  · intro cat c h
    simpa [matchColor] using h
  · intro cat c l h
    simpa [matchColor] using h
  · intro cat q h
    simpa [matchNumber] using h
  · intro cat q l h
    simpa [matchNumber] using h

/-- Witness for C6 (amended): on the built `floatCatalog`, the absent key
`99` yields `none` and the present key `8` yields its entry list. -/
theorem match_null_iff_no_entry_witness :
    matchNumber (some floatCatalog) 99 = none ∧
    matchNumber (some floatCatalog) 8 = some [space8Ref] := by
  constructor
  · exact match_null_iff_no_entry.2.2.2.2.1 floatCatalog 99
      (by simp [floatCatalog_eq, jsMapGet, List.find?, normalizeNumber_99,
        normalizeNumber_eight, space8Ref, floatCollection])
  · exact match_null_iff_no_entry.2.2.2.2.2 floatCatalog 8 [space8Ref]
      (by simp [floatCatalog_eq, jsMapGet, List.find?, normalizeNumber_eight,
        space8Ref, floatCollection])


/-! ### C10 -/

/-- Every key of a value index maps to a non-empty reference list. -/
def IndexNonempty {ρ : Type _} (idx : List (String × List ρ)) : Prop :=
  ∀ kv ∈ idx, kv.2 ≠ []

theorem indexAppend_nonempty {ρ : Type _} {idx : List (String × List ρ)}
    (key : String) (ref : ρ) (h : IndexNonempty idx) :
    IndexNonempty (indexAppend idx key ref) := by
  unfold indexAppend
  by_cases hany : idx.any (fun kv => kv.1 == key)
  · rw [if_pos hany]
    intro kv hkv
    obtain ⟨kv0, hkv0, heq⟩ := List.mem_map.mp hkv
    by_cases hk : (kv0.1 == key) = true
    · rw [if_pos hk] at heq
      rw [← heq]
      simp
    · rw [if_neg hk] at heq
      rw [← heq]
      exact h kv0 hkv0
  · rw [if_neg hany]
    intro kv hkv
    rcases List.mem_append.mp hkv with hmem | hmem
    · exact h kv hmem
    · simp only [List.mem_singleton] at hmem
      rw [hmem]
      simp

theorem foldl_preserve {α σ : Type _} (P : σ → Prop) (f : σ → α → σ)
    (hf : ∀ s a, P s → P (f s a)) :
    ∀ (l : List α) (s : σ), P s → P (l.foldl f s) := by
  intro l
  induction l with
  | nil => intro s hs; exact hs
  | cons a l ih => intro s hs; exact ih (f s a) (hf s a hs)

/-- All four value indices of a catalog have non-empty reference lists. -/
def CatalogNonempty (cat : DSCatalog) : Prop :=
  IndexNonempty cat.colorsByRgba ∧ IndexNonempty cat.numbersByValue ∧
    IndexNonempty cat.stringsByValue ∧ IndexNonempty cat.booleansByValue

theorem processVarMeta_nonempty (env : CatalogEnv) (cat : DSCatalog)
    (p : VarMeta × LibCollection) (h : CatalogNonempty cat) :
    CatalogNonempty (processVarMeta env cat p) := by
  obtain ⟨hc, hn, hs, hb⟩ := h
  unfold processVarMeta
  dsimp only
  split
  · exact ⟨hc, hn, hs, hb⟩
  · rename_i v heq
    split
    · refine ⟨?_, hn, hs, hb⟩
      refine foldl_preserve IndexNonempty _ ?_ _ _ hc
      intro idx kv hidx
      dsimp only
      rcases hr : resolveColorVariableToRGBA ⟨env.vars⟩ v.id kv.1 [] with _ | rgba
      · exact hidx
      · exact indexAppend_nonempty _ _ hidx
    · split
      · refine ⟨hc, ?_, hs, hb⟩
        refine foldl_preserve IndexNonempty _ ?_ _ _ hn
        intro idx kv hidx
        dsimp only
        rcases hkv : kv.2 with ⟨r, g, b, a⟩ | i | q | st | bb
        · exact hidx
        · exact hidx
        · exact indexAppend_nonempty _ _ hidx
        · exact hidx
        · exact hidx
      · split
        · refine ⟨hc, hn, ?_, hb⟩
          refine foldl_preserve IndexNonempty _ ?_ _ _ hs
          intro idx kv hidx
          dsimp only
          rcases hkv : kv.2 with ⟨r, g, b, a⟩ | i | q | st | bb
          · exact hidx
          · exact hidx
          · exact hidx
          · exact indexAppend_nonempty _ _ hidx
          · exact hidx
        · split
          · refine ⟨hc, hn, hs, ?_⟩
            refine foldl_preserve IndexNonempty _ ?_ _ _ hb
            intro idx kv hidx
            exact indexAppend_nonempty _ _ hidx
          · exact ⟨hc, hn, hs, hb⟩

theorem loadDSCatalogPass1_nonempty (env : CatalogEnv)
    (sel : Option String) : CatalogNonempty (loadDSCatalogPass1 env sel).1 := by
  have hempty : CatalogNonempty (emptyCatalog sel) := by
    refine ⟨?_, ?_, ?_, ?_⟩ <;> intro kv hkv <;> cases hkv
  unfold loadDSCatalogPass1
  refine foldl_preserve
    (fun (acc : DSCatalog × List (VarMeta × LibCollection)) => CatalogNonempty acc.1)
    _ ?_ _ _ hempty
  intro acc collection hacc
  refine foldl_preserve
    (fun (acc2 : DSCatalog × List (VarMeta × LibCollection)) => CatalogNonempty acc2.1)
    _ ?_ _ _ hacc
  intro acc2 varMeta hacc2
  dsimp only
  split
  · exact hacc2
  · exact hacc2

theorem loadDSCatalog_nonempty (env : CatalogEnv) (sel : Option String) :
    CatalogNonempty (loadDSCatalog env sel) := by
  unfold loadDSCatalog
  exact foldl_preserve CatalogNonempty (processVarMeta env)
    (fun cat p h => processVarMeta_nonempty env cat p h) _ _
    (loadDSCatalogPass1_nonempty env sel)

/-- **C10.** After `loadDSCatalog`, every key present in the
`colorsByRgba`, `numbersByValue`, `stringsByValue` and `booleansByValue`
indices maps to a non-empty reference list (a key is created only
immediately before a reference is pushed); consequently `matchColor` and
`matchNumber` on the built catalog return `none` or a list with at least
one element, never an empty list. -/
theorem built_catalog_indices_nonempty :
    ∀ (env : CatalogEnv) (sel : Option String),
    (∀ k l, jsMapGet (loadDSCatalog env sel).colorsByRgba k = some l → l ≠ []) ∧
    (∀ k l, jsMapGet (loadDSCatalog env sel).numbersByValue k = some l → l ≠ []) ∧
    (∀ k l, jsMapGet (loadDSCatalog env sel).stringsByValue k = some l → l ≠ []) ∧
    (∀ k l, jsMapGet (loadDSCatalog env sel).booleansByValue k = some l → l ≠ []) ∧
    (∀ c l, matchColor (some (loadDSCatalog env sel)) c = some l → l ≠ []) ∧
    (∀ q l, matchNumber (some (loadDSCatalog env sel)) q = some l → l ≠ []) := by
  intro env sel
  obtain ⟨hc, hn, hs, hb⟩ := loadDSCatalog_nonempty env sel
  have get_ne : ∀ (idx : List (String × List DSVarRef)), IndexNonempty idx →
      ∀ k l, jsMapGet idx k = some l → l ≠ [] := by
    intro idx hidx k l hget
    obtain ⟨kv, hkv, heq⟩ := jsMapGet_mem hget
    rw [← heq]
    exact hidx kv hkv
  refine ⟨get_ne _ hc, get_ne _ hn, get_ne _ hs, get_ne _ hb, ?_, ?_⟩
  · intro c l hml
    exact get_ne _ hc _ l (by simpa [matchColor] using hml)
  · intro q l hml
    exact get_ne _ hn _ l (by simpa [matchNumber] using hml)

theorem loadDSCatalog_floatEnv_eq :
    loadDSCatalog floatEnv none =
      { selectedLibraryKey := none
        collectionsByKey := [("collF", floatCollection)]
        variablesByKey := [("keySpace8", ⟨"keySpace8", "Space.8", "FLOAT"⟩)]
        colorsByRgba := []
        numbersByValue := [("8", [space8Ref])]
        stringsByValue := []
        booleansByValue := []
        paintStylesByRgba := [] } := floatCatalog_eq

/-- Witness for C10: on the concrete built catalog from `floatEnv`, the key
`"8"` is present and its list is non-empty. -/
theorem built_catalog_indices_nonempty_witness :
    jsMapGet (loadDSCatalog floatEnv none).numbersByValue "8" = some [space8Ref] ∧
    ([space8Ref] : List DSVarRef) ≠ [] := by
  constructor
  · simp [loadDSCatalog_floatEnv_eq, jsMapGet, List.find?, normalizeNumber_eight,
      space8Ref, floatCollection]
  · exact (built_catalog_indices_nonempty floatEnv none).2.1 "8" [space8Ref]
      (by simp [loadDSCatalog_floatEnv_eq, jsMapGet, List.find?,
        normalizeNumber_eight, space8Ref, floatCollection])

/-! ### C5 (corrected) -/

/-- `Space.Alias`, a FLOAT variable whose only per-mode value is an alias
to `Space.8`. -/
def spaceAliasVar : Variable :=
  ⟨"idSpaceAlias", "keySpaceAlias", "Space.Alias", [("m1", .alias "idSpace8")]⟩

def aliasFloatCollection : LibCollection :=
  ⟨"collA", "SpacingAliases", "DS Library",
    [⟨"keySpaceAlias", "Space.Alias", "FLOAT"⟩]⟩

def aliasFloatEnv : CatalogEnv := ⟨[aliasFloatCollection], [spaceAliasVar, space8Var]⟩

def colorCollection : LibCollection :=
  ⟨"collC", "Colors", "DS Library", [⟨"keyPrimary", "Primary", "COLOR"⟩]⟩

def colorAliasEnv : CatalogEnv := ⟨[colorCollection], [primaryVar, baseVar]⟩

def primaryRef : DSVarRef :=
  ⟨"collC", "Colors", "keyPrimary", "Primary", "COLOR", some "DS Library"⟩

/-- **C5, counterexample.** A FLOAT token whose per-mode value is an alias
is *not* resolved through its reference chain during catalog build: with
`Space.Alias → Space.8 = 8` (a chain the repository's own alias resolver
follows to the terminal value `8`, second conjunct), `loadDSCatalog` leaves
the number index empty instead of indexing `Space.Alias` under `8`. -/
theorem primitive_alias_not_indexed :
    (loadDSCatalog aliasFloatEnv none).numbersByValue = [] ∧
    resolveAliasWithMap aliasFloatEnv.vars (some (.alias "idSpaceAlias")) "m1" []
      = some (.num 8) := by
  constructor
  · simp [loadDSCatalog, loadDSCatalogPass1, processVarMeta, emptyCatalog,
      jsMapSet, aliasFloatEnv, aliasFloatCollection, spaceAliasVar, space8Var,
      List.find?]
  · simp [resolveAliasWithMap.eq_def, aliasFloatEnv, spaceAliasVar, space8Var,
      List.find?, selectModeValue, jsMapGet, jsFalsy]

theorem foldl_skips_non_num (ref : DSVarRef) :
    ∀ (l : List (String × VarValue)) (idx : List (String × List DSVarRef)),
    (∀ kv ∈ l, ∀ q : ℚ, kv.2 ≠ .num q) →
    l.foldl (fun idx kv =>
      match kv.2 with
      | .num q => indexAppend idx (normalizeNumber q) ref
      | _ => idx) idx = idx := by
  intro l
  induction l with
  | nil => intro idx _; rfl
  | cons kv0 l ih =>
    intro idx h
    have hhd := h kv0 (List.mem_cons_self kv0 l)
    have htl : ∀ kv ∈ l, ∀ q : ℚ, kv.2 ≠ .num q :=
      fun kv hkv => h kv (List.mem_cons_of_mem kv0 hkv)
    rw [List.foldl_cons]
    rcases hv : kv0.2 with ⟨r, g, b, a⟩ | i | q | st | bb
    · exact ih idx htl
    · exact ih idx htl
    · exact absurd hv (hhd q)
    · exact ih idx htl
    · exact ih idx htl

theorem foldl_skips_non_str (ref : DSVarRef) :
    ∀ (l : List (String × VarValue)) (idx : List (String × List DSVarRef)),
    (∀ kv ∈ l, ∀ st : String, kv.2 ≠ .str st) →
    l.foldl (fun idx kv =>
      match kv.2 with
      | .str str => indexAppend idx str ref
      | _ => idx) idx = idx := by
  intro l
  induction l with
  | nil => intro idx _; rfl
  | cons kv0 l ih =>
    intro idx h
    have hhd := h kv0 (List.mem_cons_self kv0 l)
    have htl : ∀ kv ∈ l, ∀ st : String, kv.2 ≠ .str st :=
      fun kv hkv => h kv (List.mem_cons_of_mem kv0 hkv)
    rw [List.foldl_cons]
    rcases hv : kv0.2 with ⟨r, g, b, a⟩ | i | q | st2 | bb
    · exact ih idx htl
    · exact ih idx htl
    · exact ih idx htl
    · exact absurd hv (hhd st2)
    · exact ih idx htl

/-- **C5, amended.** During catalog build only Color tokens are
alias-resolved (through `resolveColorVariableToRGBA`, with mode fallback
and cycle protection): (i) a FLOAT token all of whose per-mode values are
non-numbers (in particular, aliases) contributes nothing to the number
index; (ii) likewise a STRING token with no concrete string values; and
(iii) a COLOR token whose per-mode values are aliases *is* followed to its
terminal RGBA and indexed under it (`Primary → Base.Blue` lands on
`rgba(91,143,214,1)`, once per mode). -/
theorem resolve_primary_light :
    resolveColorVariableToRGBA ⟨colorAliasEnv.vars⟩ "primary" "light" [] =
      some ⟨91/255, 143/255, 214/255, 1⟩ := by
  simp [resolveColorVariableToRGBA.eq_def, colorAliasEnv, primaryVar, baseVar,
    getVar, List.find?, selectModeValue, jsMapGet, jsFalsy]

theorem resolve_primary_dark :
    resolveColorVariableToRGBA ⟨colorAliasEnv.vars⟩ "primary" "dark" [] =
      some ⟨91/255, 143/255, 214/255, 1⟩ := by
  simp [resolveColorVariableToRGBA.eq_def, colorAliasEnv, primaryVar, baseVar,
    getVar, List.find?, selectModeValue, jsMapGet, jsFalsy]

theorem pass1_colorAliasEnv :
    loadDSCatalogPass1 colorAliasEnv none =
      ({ selectedLibraryKey := none
         collectionsByKey := [("collC", colorCollection)]
         variablesByKey := [("keyPrimary", ⟨"keyPrimary", "Primary", "COLOR"⟩)]
         colorsByRgba := []
         numbersByValue := []
         stringsByValue := []
         booleansByValue := []
         paintStylesByRgba := [] },
       [(⟨"keyPrimary", "Primary", "COLOR"⟩, colorCollection)]) := by
  simp [loadDSCatalogPass1, emptyCatalog, jsMapSet, colorAliasEnv,
    colorCollection, primaryVar, baseVar, List.find?]

/-- **C5, amended.** During catalog build only Color tokens are
alias-resolved (through `resolveColorVariableToRGBA`, with mode fallback
and cycle protection): (i) a FLOAT token all of whose per-mode values are
non-numbers (in particular, aliases) contributes nothing to the number
index; (ii) likewise a STRING token with no concrete string values; and
(iii) a COLOR token whose per-mode values are aliases *is* followed to its
terminal RGBA and indexed under it (`Primary → Base.Blue` lands on
`rgba(91,143,214,1)`, once per mode). -/
theorem catalog_build_resolves_only_colors :
    (∀ (env : CatalogEnv) (cat : DSCatalog) (varMeta : VarMeta)
       (coll : LibCollection) (v : Variable),
       varMeta.resolvedType = "FLOAT" →
       env.vars.find? (fun w => w.key == varMeta.key) = some v →
       (∀ kv ∈ v.valuesByMode, ∀ q : ℚ, kv.2 ≠ .num q) →
       (processVarMeta env cat (varMeta, coll)).numbersByValue =
         cat.numbersByValue) ∧
    (∀ (env : CatalogEnv) (cat : DSCatalog) (varMeta : VarMeta)
       (coll : LibCollection) (v : Variable),
       varMeta.resolvedType = "STRING" →
       env.vars.find? (fun w => w.key == varMeta.key) = some v →
       (∀ kv ∈ v.valuesByMode, ∀ st : String, kv.2 ≠ .str st) →
       (processVarMeta env cat (varMeta, coll)).stringsByValue =
         cat.stringsByValue) ∧
    (loadDSCatalog colorAliasEnv none).colorsByRgba =
      [("rgba(91,143,214,1)", [primaryRef, primaryRef])] := by
  refine ⟨?_, ?_, ?_⟩
  · intro env cat varMeta coll v hty hf hvals
    unfold processVarMeta
    simp only [hf, hty]
    rw [foldl_skips_non_num _ _ _ hvals]
    simp
  · intro env cat varMeta coll v hty hf hvals
    unfold processVarMeta
    simp only [hf, hty]
    rw [foldl_skips_non_str _ _ _ hvals]
    simp
  · have hfind : List.find? (fun w => w.key == "keyPrimary") colorAliasEnv.vars =
        some primaryVar := by
      simp [colorAliasEnv, primaryVar, List.find?]
    have hid : primaryVar.id = "primary" := rfl
    have hmodes : primaryVar.valuesByMode =
        [("light", .alias "base"), ("dark", .alias "base")] := rfl
    rw [loadDSCatalog, pass1_colorAliasEnv]
    simp only [List.foldl_cons, List.foldl_nil]
    unfold processVarMeta
    simp only [hfind, hid, hmodes]
    simp [resolve_primary_light, resolve_primary_dark, normalizeRgba_91,
      indexAppend, colorCollection, primaryRef]

/-- Witness for C5 (amended): processing the aliased FLOAT token
`Space.Alias` leaves the number index unchanged. -/
theorem catalog_build_resolves_only_colors_witness :
    (processVarMeta aliasFloatEnv (emptyCatalog none)
      (⟨"keySpaceAlias", "Space.Alias", "FLOAT"⟩, aliasFloatCollection)).numbersByValue =
      (emptyCatalog none).numbersByValue :=
  catalog_build_resolves_only_colors.1 aliasFloatEnv (emptyCatalog none)
    ⟨"keySpaceAlias", "Space.Alias", "FLOAT"⟩ aliasFloatCollection spaceAliasVar
    rfl
    (by simp [aliasFloatEnv, spaceAliasVar, space8Var, List.find?])
    (by simp [spaceAliasVar])


/-! ### C7 -/

/-- **C7.** Binding always outranks value matching: a fill or stroke paint
whose index carries an explicit `boundVariables` entry contributes no
Finding, whatever the catalog contains and whatever the paint's literal
value is. -/
theorem bound_paint_produces_no_finding :
    (∀ (catalog : Option DSCatalog) (vars : List Variable) (settings : Settings)
       (node : SceneNode) (i : ℕ) (fill : Paint),
       (boundPaintAlias node.boundVariables (fun b => b.fills) i).isSome = true →
       checkFillPaint catalog vars settings node i fill = []) ∧
    (∀ (catalog : Option DSCatalog) (vars : List Variable) (settings : Settings)
       (node : SceneNode) (i : ℕ) (stroke : Paint),
       (boundPaintAlias node.boundVariables (fun b => b.strokes) i).isSome = true →
       checkStrokePaint catalog vars settings node i stroke = []) := by
  constructor
  · intro catalog vars settings node i fill h
    unfold checkFillPaint
    simp [h]
  · intro catalog vars settings node i stroke h
    unfold checkStrokePaint
    simp [h]

/-- Linter settings used by the concrete witnesses. -/
def demoSettings : Settings := ⟨"normal", true, true, true⟩

/-- A visible solid paint with the literal value `rgba(10,10,10,1)`
(channels `10/255`, default opacity). -/
def solidPaint10 : Paint := ⟨"SOLID", none, none, ⟨10/255, 10/255, 10/255, none⟩, none⟩

/-- A node whose first fill is explicitly bound to a variable. -/
def boundNode : SceneNode :=
  { id := "n2", name := "BoundRect", pageName := "Page 1"
    fills := some (.list [solidPaint10]), strokes := none
    boundVariables := some ⟨some [some "var1"], none⟩
    fillStyleId := none, strokeStyleId := none, textStyleId := none
    itemSpacing := none, padding := none, cornerRadius := none }

/-- Witness for C7: the bound fill of `boundNode` yields no finding even
though its value `rgba(10,10,10,1)` is not in the catalog (and would
otherwise be flagged). -/
theorem bound_paint_produces_no_finding_witness :
    checkFillPaint (some floatCatalog) [] demoSettings boundNode 0 solidPaint10 = [] :=
  bound_paint_produces_no_finding.1 (some floatCatalog) [] demoSettings
    boundNode 0 solidPaint10
    (by simp [boundPaintAlias, boundNode, List.get?])

/-! ### C2 -/

theorem effective_implies_solid (paint : Paint) (settings : Settings)
    (h : isEffectiveVisiblePaint paint settings = true) : paint.type = "SOLID" := by
  unfold isEffectiveVisiblePaint at h
  by_cases hc : (paint.type != "SOLID") = true
  · rw [if_pos hc] at h
    cases h
  · simpa using hc

/-- **C2.** A scanned solid fill (resp. stroke) that is effective and
visible, has no variable binding, no applied paint style, and whose RGBA
value matches neither the color-variable index nor the paint-style index,
produces exactly one Finding: severity `"block"`, not auto-fixable, no fix
payload, and a remediation message (`howToFix`) containing the literal
R/G/B channel values. -/
theorem unmatched_color_emits_block_finding :
    (∀ (catalog : Option DSCatalog) (vars : List Variable) (settings : Settings)
       (node : SceneNode) (i : ℕ) (fill : Paint),
       isEffectiveVisiblePaint fill settings = true →
       boundPaintAlias node.boundVariables (fun b => b.fills) i = none →
       styleIdSkips node.fillStyleId = false →
       (matchColor catalog (paintRgba fill) = none ∨
        matchColor catalog (paintRgba fill) = some []) →
       (matchPaintStyle catalog (paintRgba fill) = none ∨
        matchPaintStyle catalog (paintRgba fill) = some []) →
       checkFillPaint catalog vars settings node i fill =
         [{ id := node.id ++ "-fill-color", principle := "Clarity",
            severity := "block", ruleId := "tokens.colors.fill",
            nodeId := node.id, nodeName := node.name, pageName := node.pageName,
            message := "Color not in design system",
            howToFix := "This color (R:" ++
              toString (jsRound ((paintRgba fill).r * 255)) ++ " G:" ++
              toString (jsRound ((paintRgba fill).g * 255)) ++ " B:" ++
              toString (jsRound ((paintRgba fill).b * 255)) ++
              ") is not defined in the design system. Use an existing DS variable or add it to the design system.",
            canAutoFix := false, fixPayload := none }]) ∧
    (∀ (catalog : Option DSCatalog) (vars : List Variable) (settings : Settings)
       (node : SceneNode) (i : ℕ) (stroke : Paint),
       isEffectiveVisiblePaint stroke settings = true →
       boundPaintAlias node.boundVariables (fun b => b.strokes) i = none →
       styleIdSkips node.strokeStyleId = false →
       (matchColor catalog (paintRgba stroke) = none ∨
        matchColor catalog (paintRgba stroke) = some []) →
       (matchPaintStyle catalog (paintRgba stroke) = none ∨
        matchPaintStyle catalog (paintRgba stroke) = some []) →
       checkStrokePaint catalog vars settings node i stroke =
         [{ id := node.id ++ "-stroke-color", principle := "Clarity",
            severity := "block", ruleId := "tokens.colors.stroke",
            nodeId := node.id, nodeName := node.name, pageName := node.pageName,
            message := "Color not in design system",
            howToFix := "This stroke color (R:" ++
              toString (jsRound ((paintRgba stroke).r * 255)) ++ " G:" ++
              toString (jsRound ((paintRgba stroke).g * 255)) ++ " B:" ++
              toString (jsRound ((paintRgba stroke).b * 255)) ++
              ") is not defined in the design system. Use an existing DS variable or add it to the design system.",
            canAutoFix := false, fixPayload := none }]) := by
  constructor
  · intro catalog vars settings node i fill heff hbound hstyle hvm hsm
    have htype := effective_implies_solid fill settings heff
    unfold checkFillPaint
    rcases hvm with hvm | hvm <;> rcases hsm with hsm | hsm <;>
      simp [heff, htype, hbound, hstyle, hvm, hsm]
  · intro catalog vars settings node i stroke heff hbound hstyle hvm hsm
    have htype := effective_implies_solid stroke settings heff
    unfold checkStrokePaint
    rcases hvm with hvm | hvm <;> rcases hsm with hsm | hsm <;>
      simp [heff, htype, hbound, hstyle, hvm, hsm]

/-- An unbound node with a single solid `rgba(10,10,10,1)` fill. -/
def plainNode : SceneNode :=
  { id := "n1", name := "Rect", pageName := "Page 1"
    fills := some (.list [solidPaint10]), strokes := none
    boundVariables := none
    fillStyleId := none, strokeStyleId := none, textStyleId := none
    itemSpacing := none, padding := none, cornerRadius := none }

/-- Witness for C2: on the built `floatCatalog` (which indexes no colors
and no paint styles), the unbound `rgba(10,10,10,1)` fill of `plainNode`
yields exactly the block Finding, with the channel values `R:10 G:10 B:10`
spelled out in its remediation message. -/
theorem unmatched_color_emits_block_finding_witness :
    checkFillPaint (some floatCatalog) [] demoSettings plainNode 0 solidPaint10 =
      [{ id := "n1-fill-color", principle := "Clarity", severity := "block",
         ruleId := "tokens.colors.fill", nodeId := "n1", nodeName := "Rect",
         pageName := "Page 1", message := "Color not in design system",
         howToFix := "This color (R:10 G:10 B:10) is not defined in the design system. Use an existing DS variable or add it to the design system.",
         canAutoFix := false, fixPayload := none }] := by
  rw [unmatched_color_emits_block_finding.1 (some floatCatalog) [] demoSettings
    plainNode 0 solidPaint10
    (by simp [isEffectiveVisiblePaint, solidPaint10, demoSettings])
    rfl
    rfl
    (Or.inl (by simp [matchColor, floatCatalog_eq, paintRgba, solidPaint10,
      normalizeRgba_10, jsMapGet]))
    (Or.inl (by simp [matchPaintStyle, floatCatalog_eq, paintRgba, solidPaint10,
      normalizeRgba_10, jsMapGet]))]
  simp only [plainNode, paintRgba, solidPaint10]
  simp only [jsRound_10, jsRound_ten]
  simp [jsRound_ten]
  decide


/-! ### C8 -/

theorem node_fills_eta (node : SceneNode) (fv : NodeFills)
    (h : node.fills = some fv) : { node with fills := some fv } = node := by
  cases node with
  | mk i nm pg f st bv fsi ssi tsi isp pad cr =>
    dsimp only at h
    dsimp only
    rw [h]

theorem restore_fills_roundtrip (node : SceneNode) (fv fv2 : NodeFills)
    (h : node.fills = some fv) :
    restoreSnapshot { node with fills := some fv2 } (Snapshot.fills fv) = node := by
  cases node with
  | mk i nm pg f st bv fsi ssi tsi isp pad cr =>
    dsimp only at h
    unfold restoreSnapshot
    simp [h]

/-- The bind-variable-to-fills fix payload for variable id `vid`. -/
def bindFillsPayload (vid : String) : FixPayload :=
  { emptyPayload with
    type := some "bind-variable", variableId := some vid,
    property := some "fills" }

theorem applyVariableBinding_fills (vars : List Variable) (node : SceneNode)
    (vid : String) (v : Variable) (fv : NodeFills)
    (hvar : vars.find? (fun w => w.id == vid) = some v)
    (hfills : node.fills = some fv) :
    ∃ fv2 : NodeFills,
      applyVariableBinding vars node (bindFillsPayload vid) =
        Except.ok { node with fills := some fv2 } := by
  unfold applyVariableBinding
  dsimp only [bindFillsPayload, emptyPayload]
  rw [hvar]
  simp only [hfills]
  rcases fv with _ | ps
  · exact ⟨.mixed, by simp [node_fills_eta node .mixed hfills]⟩
  · rcases ps with _ | ⟨p0, rest⟩
    · exact ⟨.list [], by simp [node_fills_eta node (.list []) hfills]⟩
    · by_cases hp : (p0.type == "SOLID") = true
      · exact ⟨.list (setBoundVariableForPaint p0 v :: rest), by simp [hp]⟩
      · exact ⟨.list (p0 :: rest),
          by simp [hp, node_fills_eta node (.list (p0 :: rest)) hfills]⟩

/-- **C8.** Apply-then-undo round-trips exactly for a bind-variable fix on
fills: capturing the node before `applyFix` and calling `undoFix` with the
same finding id restores the node (in particular its fill list) to a value
structurally equal to the captured one, and deletes the journal entry for
that finding id, making the undo single-use. -/
theorem apply_then_undo_roundtrip (s : PluginState) (fid nid vid : String)
    (node : SceneNode) (fv : NodeFills) (v : Variable)
    (hnode : jsMapGet s.nodes nid = some node)
    (hfills : node.fills = some fv)
    (hvar : s.vars.find? (fun w => w.id == vid) = some v) :
    ∃ s1 s2 : PluginState,
      applyFix s fid nid (bindFillsPayload vid) = Except.ok s1 ∧
      undoFix s1 fid nid = Except.ok (s2, UndoOutcome.undone) ∧
      jsMapGet s2.nodes nid = some node ∧
      jsMapGet s2.journal fid = none := by
  obtain ⟨fv2, havb⟩ := applyVariableBinding_fills s.vars node vid v fv hvar hfills
  have happly : applyFix s fid nid (bindFillsPayload vid) =
      Except.ok { s with
        nodes := jsMapSet s.nodes nid { node with fills := some fv2 },
        journal := jsMapSet s.journal fid (Snapshot.fills fv) } := by
    unfold applyFix
    rw [hnode]
    dsimp only
    simp only [bindFillsPayload, emptyPayload] at havb
    simp [hfills, havb, commitFix, bindFillsPayload, emptyPayload, Except.map]
  have hundo : undoFix { s with
      nodes := jsMapSet s.nodes nid { node with fills := some fv2 },
      journal := jsMapSet s.journal fid (Snapshot.fills fv) } fid nid =
      Except.ok ({ s with
        nodes := jsMapSet (jsMapSet s.nodes nid { node with fills := some fv2 })
          nid node,
        journal := jsMapDelete (jsMapSet s.journal fid (Snapshot.fills fv)) fid },
        UndoOutcome.undone) := by
    unfold undoFix
    dsimp only
    rw [jsMapGet_jsMapSet_self, jsMapGet_jsMapSet_self]
    dsimp only
    rw [restore_fills_roundtrip node fv fv2 hfills]
  refine ⟨_, _, happly, hundo, ?_, ?_⟩
  · exact jsMapGet_jsMapSet_self _ _ _
  · exact jsMapGet_jsMapDelete_self _ _

/-- A variable matching `rgba(10,10,10,1)`, importable for binding. -/
def demoVar : Variable :=
  ⟨"var1", "keyVar1", "Color.Primary",
    [("m", .rgba (10/255) (10/255) (10/255) (some 1))]⟩

/-- Plugin state with one plain node and one variable. -/
def demoStateV : PluginState := ⟨[("n1", plainNode)], [demoVar], [], [], []⟩

/-- Witness for C8: the round-trip on the concrete state `demoStateV`. -/
theorem apply_then_undo_roundtrip_witness :
    ∃ s1 s2 : PluginState,
      applyFix demoStateV "f1" "n1" (bindFillsPayload "var1") = Except.ok s1 ∧
      undoFix s1 "f1" "n1" = Except.ok (s2, UndoOutcome.undone) ∧
      jsMapGet s2.nodes "n1" = some plainNode ∧
      jsMapGet s2.journal "f1" = none :=
  apply_then_undo_roundtrip demoStateV "f1" "n1" "var1" plainNode
    (.list [solidPaint10]) demoVar
    (by simp [demoStateV, jsMapGet, List.find?])
    rfl
    (by simp [demoStateV, demoVar, List.find?])

/-! ### C9 (corrected) -/

/-- The create-annotation fix payload used by the C9 theorems. -/
def annPayload : FixPayload :=
  { emptyPayload with
    type := some "create-frame",
    frameData := some ⟨"Annotations", ["tag1"]⟩ }

/-- Plugin state with one plain node, empty journal, no frames. -/
def demoState : PluginState := ⟨[("n1", plainNode)], [], [], [], []⟩

/-- `demoState` after the create-frame fix appended its annotation frame. -/
def demoStateWithFrame : PluginState :=
  { demoState with pageChildren := [⟨"Annotations", ["tag1"]⟩] }

/-- **C9, counterexample.** After `applyFix` with a create-frame payload
(for which no snapshot is stored), `undoFix` with that finding id does
*not* remove the created annotation frame: it reports "nothing to undo"
and leaves the state — including the created frame — unchanged. -/
theorem create_frame_undo_counterexample :
    applyFix demoState "f1" "n1" annPayload = Except.ok demoStateWithFrame ∧
    undoFix demoStateWithFrame "f1" "n1" =
      Except.ok (demoStateWithFrame, UndoOutcome.nothingToUndo) ∧
    demoStateWithFrame.pageChildren = [⟨"Annotations", ["tag1"]⟩] := by
  refine ⟨?_, ?_, rfl⟩
  · simp [applyFix, createAnnotationFrame, demoState, demoStateWithFrame,
      annPayload, emptyPayload, jsMapGet, List.find?]
  · simp [undoFix, demoStateWithFrame, demoState, jsMapGet, List.find?]

/-- **C9, amended.** A create-frame fix stores no snapshot: `applyFix`
leaves the nodes and the undo journal unchanged and only appends the new
annotation frame to the page; consequently, when the journal has no entry
for the finding id, a subsequent `undoFix` reports "nothing to undo" and
leaves the state — the created frame included — untouched, rather than
deleting the created element. -/
theorem create_frame_fix_writes_no_journal :
    ∀ (s : PluginState) (fid nid : String) (pld : FixPayload) (node : SceneNode),
    jsMapGet s.nodes nid = some node →
    pld.type = some "create-frame" →
    ∃ s1 : PluginState,
      applyFix s fid nid pld = Except.ok s1 ∧
      s1.nodes = s.nodes ∧ s1.journal = s.journal ∧
      s1.pageChildren = s.pageChildren ++
        (match pld.frameData with
         | none => []
         | some fd => [⟨fd.name, fd.text⟩]) ∧
      (jsMapGet s.journal fid = none →
        undoFix s1 fid nid = Except.ok (s1, UndoOutcome.nothingToUndo)) := by
  intro s fid nid pld node hnode hty
  rcases hfd : pld.frameData with _ | fd
  · refine ⟨s, ?_, rfl, rfl, by simp, ?_⟩
    · unfold applyFix
      rw [hnode]
      dsimp only
      simp [hty, createAnnotationFrame, hfd]
    · intro hj
      unfold undoFix
      rw [hnode]
      dsimp only
      simp [hj]
  · refine ⟨{ s with pageChildren := s.pageChildren ++ [⟨fd.name, fd.text⟩] },
      ?_, rfl, rfl, by simp, ?_⟩
    · unfold applyFix
      rw [hnode]
      dsimp only
      simp [hty, createAnnotationFrame, hfd]
    · intro hj
      unfold undoFix
      dsimp only
      rw [hnode]
      dsimp only
      simp [hj]

/-- Witness for C9 (amended): the concrete create-frame fix on `demoState`
appends the frame, writes no journal entry, and undo reports "nothing to
undo". -/
theorem create_frame_fix_writes_no_journal_witness :
    ∃ s1 : PluginState,
      applyFix demoState "f1" "n1" annPayload = Except.ok s1 ∧
      s1.nodes = demoState.nodes ∧ s1.journal = demoState.journal ∧
      s1.pageChildren = demoState.pageChildren ++
        (match annPayload.frameData with
         | none => []
         | some fd => [⟨fd.name, fd.text⟩]) ∧
      (jsMapGet demoState.journal "f1" = none →
        undoFix s1 "f1" "n1" = Except.ok (s1, UndoOutcome.nothingToUndo)) :=
  create_frame_fix_writes_no_journal demoState "f1" "n1" annPayload plainNode
    (by simp [demoState, jsMapGet, List.find?])
    rfl

end DesignLinter
